import Mathlib

/-!
Verification of the core of `hubspot_downloader`: the rate-limited, retrying
API access layer (`src/hubspot/api.py`), the identifier validation and the
disk cache around `get_company`, and the file-placement logic of
`src/hubspot/email_processor.py` / `src/hubspot/utils.py`.

Python strings are modelled as Lean `String` (a list of characters); time is
modelled by `ℚ` (wall-clock seconds); Python dictionaries that the code only
passes around and tests for emptiness are modelled as association lists.
Fallible Python operations (raising `ValueError` etc.) return `Option`.
-/

/-! ## Python string primitives -/

/-- The six ASCII whitespace characters removed by Python `str.strip()`
(space, tab, newline, carriage return, vertical tab, form feed).
Non-ASCII whitespace is not modelled; no input in this development uses it. -/
def pyWsChar (c : Char) : Bool :=
  (c = ' ') || (c = Char.ofNat 9) || (c = Char.ofNat 10) ||
  (c = Char.ofNat 13) || (c = Char.ofNat 11) || (c = Char.ofNat 12)

/-- Python `str.strip` on a character list: whitespace removed from both ends. -/
def stripChars (l : List Char) : List Char :=
  List.rdropWhile pyWsChar (l.dropWhile pyWsChar)

/-- Python `str.strip` on a string. -/
def pyStrip (s : String) : String := ⟨stripChars s.data⟩

/-- Python `str.lower()` (ASCII case folding; the repository only lower-cases
email addresses and the literal "nan"/"NaN" forms). -/
def pyLower (s : String) : String := ⟨s.data.map Char.toLower⟩

/-- Substring containment, the Python expression `sub in s`. -/
def strContains (sub s : String) : Bool :=
  s.data.tails.any (fun t => sub.data.isPrefixOf t)

/-! ## utils.sanitize_filename (src/hubspot/utils.py lines 19-37) -/

/-- A character matched by the regex class of the `re.sub` in `sanitize_filename`:
the nine filesystem-unsafe characters plus the single quote (`Char.ofNat 39`). -/
def forbiddenChar (c : Char) : Bool :=
  (c = '<') || (c = '>') || (c = ':') || (c = '"') || (c = '/') ||
  (c = '\\') || (c = '|') || (c = '?') || (c = '*') || (c = Char.ofNat 39)

/-- The per-character substitution performed by the `re.sub`. -/
def replChar (c : Char) : Char := if forbiddenChar c then '_' else c

/-- The `re.sub` call: every forbidden character becomes an underscore. -/
def pyReplaceInvalid (s : String) : String := ⟨s.data.map replChar⟩

/-- Function `sanitize_filename` from src/hubspot/utils.py: `None` maps to "unknown",
otherwise forbidden characters are replaced by underscores, the result is
stripped, and an empty result falls back to "unknown". -/
def sanitize_filename : Option String → String
  | Option.none => "unknown"
  | some s =>
    let t := pyStrip (pyReplaceInvalid s)
    if t = "" then "unknown" else t

/-- Function `get_email_filename` from src/hubspot/utils.py lines 78-89: the properties
argument is ignored and the filename is the HubSpot id plus ".txt". -/
def get_email_filename (email_id : String) : String := email_id ++ ".txt"

/-! ## Rate limiter (src/hubspot/api.py lines 33-59)

The deque of request timestamps is a `List ℚ` (front = oldest), `maxlen` 110.
`wait_for_rate_limit` takes the window and the entry time `now = datetime.now()`
and returns the new window together with the time slept. -/

/-- Constant `RATE_LIMIT = 110` (requests). -/
def RATE_LIMIT : Nat := 110

/-- Constant `RATE_WINDOW = 10` (seconds). -/
def RATE_WINDOW : ℚ := 10

/-- The eviction loop: `while request_timestamps and (now - request_timestamps[0]) >
timedelta(seconds=RATE_WINDOW): request_timestamps.popleft()`. -/
def pruneOld (now : ℚ) (w : List ℚ) : List ℚ :=
  w.dropWhile (fun t => decide (RATE_WINDOW < now - t))

/-- Append on a `deque(maxlen=RATE_LIMIT)`: when the deque is at capacity the
oldest (leftmost) entry is discarded. -/
def dequeAppendCap (w : List ℚ) (t : ℚ) : List ℚ :=
  if RATE_LIMIT ≤ w.length then w.tail ++ [t] else w ++ [t]

/-- Function `wait_for_rate_limit`: prune old entries, sleep
`oldest + RATE_WINDOW - now` if the pruned window is at capacity and that
value is positive, then append `now` (the timestamp captured on entry,
before any sleep).  Returns (new window, seconds slept); the call returns to
its caller at wall-clock time `now + slept`. -/
def wait_for_rate_limit (w : List ℚ) (now : ℚ) : List ℚ × ℚ :=
  let pruned := pruneOld now w
  let waitT :=
    if RATE_LIMIT ≤ pruned.length then
      match pruned.head? with
      | some oldest =>
        if 0 < oldest + RATE_WINDOW - now then oldest + RATE_WINDOW - now else 0
      | Option.none => 0
    else 0
  (dequeAppendCap pruned now, waitT)

/-- A sequential run of `wait_for_rate_limit`: one call per entry time in the
list.  Produces the final window and, per call, the pair
(timestamp appended to the window, wall-clock return time). -/
def runLimiter (w : List ℚ) : List ℚ → List ℚ × List (ℚ × ℚ)
  | [] => (w, [])
  | now :: rest =>
    let s := wait_for_rate_limit w now
    let r := runLimiter s.1 rest
    (r.1, (now, now + s.2) :: r.2)

/-- Realizability of a list of entry times for sequential callers starting
from window `w` with the first call no earlier than `lb`: each call enters no
earlier than the previous call returned. -/
def SeqSchedule (w : List ℚ) (lb : ℚ) : List ℚ → Bool
  | [] => true
  | now :: rest =>
    decide (lb ≤ now) &&
      SeqSchedule (wait_for_rate_limit w now).1 (now + (wait_for_rate_limit w now).2) rest

/-- The sequence of window states observed by a sequential run: the state in
which each admission decision is taken, plus the final state. -/
def limiterStates (w : List ℚ) : List ℚ → List (List ℚ)
  | [] => [w]
  | now :: rest => w :: limiterStates (wait_for_rate_limit w now).1 rest

/-! ## HTTP client (src/hubspot/api.py lines 61-105)

The outcome of each attempt on the wire is modelled by `Resp`; a request is a
function from the attempt counter (the loop variable of
`for attempt in range(max_retries)`) to the outcome of that attempt.  JSON
payloads are opaque association lists (`PyDict`). -/

/-- An opaque JSON document / Python dict; the code only tests emptiness. -/
def PyDict := List (String × String)
deriving DecidableEq

/-- Outcome of one `requests.get` + `raise_for_status` + `.json()`:
2xx with payload, HTTP 429 carrying the parsed `Retry-After` header
(`Option.none` = header absent), another non-2xx status, or a transport-level
`RequestException`. -/
inductive Resp where
  | success (payload : PyDict)
  | http429 (retryAfter : Option Nat)
  | httpErr (status : Nat)
  | transport (msg : String)
deriving DecidableEq

/-- A sleep performed by `make_api_request`: the `handle_rate_limit` sleep
after a 429, or the `time.sleep(2 ** attempt)` exponential backoff. -/
inductive SleepEv where
  | rateLimitWait (secs : Nat)
  | backoff (secs : Nat)
deriving DecidableEq

/-- Result of `make_api_request`: a returned JSON document, a re-raised
`HTTPError`, or a re-raised transport error. -/
inductive ApiOutcome where
  | ok (payload : PyDict)
  | raisedHttp (status : Nat)
  | raisedTransport (msg : String)
deriving DecidableEq

/-- Sleep duration of `handle_rate_limit`: the parsed Retry-After header
value, or 10 when the header is absent (the `.get` default). -/
def handle_rate_limit (retryAfter : Option Nat) : Nat := retryAfter.getD 10

/-- The attempt loop of `make_api_request` (`for attempt in range(3)`).
`fuel` is the number of loop iterations still available (`3 - attempt`);
running out of fuel is the loop falling through to `return {}`.  Returns
(outcome, sleeps performed in order, number of attempts made — each attempt
consumes one `wait_for_rate_limit` admission). -/
def makeApiGo (f : Nat → Resp) : Nat → Nat → ApiOutcome × List SleepEv × Nat
  | 0, _ => (ApiOutcome.ok [], [], 0)
  | fuel + 1, attempt =>
    match f attempt with
    | Resp.success p => (ApiOutcome.ok p, [], 1)
    | Resp.httpErr s => (ApiOutcome.raisedHttp s, [], 1)
    | Resp.http429 ra =>
      let r := makeApiGo f fuel (attempt + 1)
      (r.1, SleepEv.rateLimitWait (handle_rate_limit ra) :: r.2.1, r.2.2 + 1)
    | Resp.transport m =>
      if fuel = 0 then (ApiOutcome.raisedTransport m, [], 1)
      else
        let r := makeApiGo f fuel (attempt + 1)
        (r.1, SleepEv.backoff (2 ^ attempt) :: r.2.1, r.2.2 + 1)

/-- Function `make_api_request` with `max_retries = 3`. -/
def make_api_request (f : Nat → Resp) : ApiOutcome × List SleepEv × Nat :=
  makeApiGo f 3 0

/-! ## Identifier validation and normalization (src/hubspot/api.py lines 132-152, 170) -/

/-- A Python float as far as this code observes it: NaN, an infinity
(sign irrelevant — `int()` raises on both), or a finite value. -/
inductive PyFloat where
  | nan
  | inf
  | val (q : ℚ)
deriving DecidableEq

/-- A heterogeneous identifier as it arrives from the CSV / API layer:
`None`, a string, an int, or a float. -/
inductive IdValue where
  | none
  | str (s : String)
  | int (n : Int)
  | float (f : PyFloat)
deriving DecidableEq

/-- Rendering of a finite float for `str(id_value)`.  A simplified stand-in
for the Python float repr: integral values render as "123.0", others as the
exact fraction.  Only the facts that the result is non-empty, has no
surrounding whitespace and never lower-cases to "nan" are relied upon, and
the Python repr of a finite float shares them. -/
def pyFloatRepr (q : ℚ) : String :=
  if q.den = 1 then toString q.num ++ ".0" else toString q.num ++ "/" ++ toString q.den

/-- Python `str()` on an identifier value. -/
def pyStr : IdValue → String
  | IdValue.none => "None"
  | IdValue.str s => s
  | IdValue.int n => toString n
  | IdValue.float PyFloat.nan => "nan"
  | IdValue.float PyFloat.inf => "inf"
  | IdValue.float (PyFloat.val q) => pyFloatRepr q

/-- Function `is_valid_id` from src/hubspot/api.py lines 132-152, with the
check order of the source: `None`; then lower-cased string form equal to
"nan" or stripped string form empty (note: the "nan" comparison is on the
lower-cased but UNtrimmed string); then float NaN. -/
def is_valid_id (v : IdValue) : Bool :=
  match v with
  | IdValue.none => false
  | _ =>
    if pyLower (pyStr v) = "nan" || pyStrip (pyStr v) = "" then false
    else
      match v with
      | IdValue.float PyFloat.nan => false
      | _ => true

/-- Digit-string value. -/
def digitsVal (l : List Char) : Nat := l.foldl (fun a c => a * 10 + (c.toNat - 48)) 0

/-- The unsigned part of Python `float(str)`: "nan"/"inf"/"infinity"
(case-insensitive) or a decimal literal `digits [. digits]`.
Exponents and underscore separators are not modelled; no identifier in this
development uses them. -/
def parseUnsigned (sign : Int) (l : List Char) : Option PyFloat :=
  if l.map Char.toLower = "nan".data then some PyFloat.nan
  else if l.map Char.toLower = "inf".data || l.map Char.toLower = "infinity".data then
    some PyFloat.inf
  else
    let ip := l.takeWhile Char.isDigit
    match l.drop ip.length with
    | [] => if ip = [] then Option.none else some (PyFloat.val (mkRat (sign * digitsVal ip) 1))
    | c :: frac =>
      if c = '.' ∧ frac.all Char.isDigit ∧ (ip ≠ [] ∨ frac ≠ []) then
        some (PyFloat.val
          (mkRat (sign * (digitsVal ip * 10 ^ frac.length + digitsVal frac)) (10 ^ frac.length)))
      else Option.none

/-- Python `float(str)`: strip whitespace, optional sign, then the unsigned
part; `Option.none` models a raised `ValueError`. -/
def pyParseFloat (s : String) : Option PyFloat :=
  match stripChars s.data with
  | [] => Option.none
  | c :: rest =>
    if c = '+' then parseUnsigned 1 rest
    else if c = '-' then parseUnsigned (-1) rest
    else parseUnsigned 1 (c :: rest)

/-- Python `float(v)` on an identifier value; `Option.none` models a raised
`TypeError`/`ValueError`. -/
def pyFloatFn : IdValue → Option PyFloat
  | IdValue.none => Option.none
  | IdValue.int n => some (PyFloat.val (mkRat n 1))
  | IdValue.float f => some f
  | IdValue.str s => pyParseFloat s

/-- Python `int(f)` on a float: truncation toward zero; raises on NaN and
infinities. -/
def pyTruncToInt : PyFloat → Option Int
  | PyFloat.nan => Option.none
  | PyFloat.inf => Option.none
  | PyFloat.val q => some (Int.tdiv q.num (q.den : Int))

/-- The normalization `str(int(float(company_id)))` used by `get_company`
(src/hubspot/api.py line 170) and `get_email_content`; `Option.none` models
the raised exception caught by the surrounding `try`. -/
def normalize_id (v : IdValue) : Option String :=
  (pyFloatFn v).bind fun f => (pyTruncToInt f).map fun n => toString n

/-! ## Disk cache and get_company (src/hubspot/api.py lines 154-199, 292-328) -/

/-- What the filesystem yields when `load_company_from_disk` opens the cache
file for a key: a parsed document, no file, or an I/O / JSON error (the
`except` branch). -/
inductive DiskResult where
  | found (doc : PyDict)
  | absent
  | ioError
deriving DecidableEq

/-- Outcome of the remote fetch `make_api_request(...)` inside `get_company`:
a returned document or a raised exception (caught by `get_company`). -/
inductive FetchResult where
  | ok (doc : PyDict)
  | raised
deriving DecidableEq

/-- I/O performed by one `get_company` call: cache keys read, keys fetched
from the remote API, and (key, document) pairs written to the cache. -/
structure IoLog where
  reads : List String
  fetches : List String
  writes : List (String × PyDict)
deriving DecidableEq

/-- Function `load_company_from_disk`: returns the cached document, or `None`
both when the file is absent and when reading raises (the error is logged
and swallowed). -/
def load_company_from_disk (disk : String → DiskResult) (key : String) : Option PyDict :=
  match disk key with
  | DiskResult.found d => some d
  | DiskResult.absent => Option.none
  | DiskResult.ioError => Option.none

/-- The tail of `get_company` after a cache miss: fetch from the API; a raised
exception is caught and yields `{}`; a non-empty document is saved to disk
(`save_company_to_disk`) before being returned. -/
def get_company_fetch (fetch : String → FetchResult) (key : String) : PyDict × IoLog :=
  match fetch key with
  | FetchResult.raised => ([], ⟨[key], [key], []⟩)
  | FetchResult.ok data =>
    if data = [] then (data, ⟨[key], [key], []⟩)
    else (data, ⟨[key], [key], [(key, data)]⟩)

/-- Function `get_company` from src/hubspot/api.py lines 154-199: reject invalid ids
with `{}` and no I/O; normalize the id (a failure is caught and yields `{}`);
return a non-empty cached document without a network call; otherwise fetch,
persisting a non-empty result. -/
def get_company (disk : String → DiskResult) (fetch : String → FetchResult)
    (company_id : IdValue) : PyDict × IoLog :=
  if is_valid_id company_id then
    match normalize_id company_id with
    | some key =>
      match load_company_from_disk disk key with
      | some cached =>
        if cached = [] then get_company_fetch fetch key else (cached, ⟨[key], [], []⟩)
      | Option.none => get_company_fetch fetch key
    | Option.none => ([], ⟨[], [], []⟩)
  else ([], ⟨[], [], []⟩)

/-! ## Email placement and saving (src/hubspot/email_processor.py lines 59-153) -/

/-- The email properties read by `save_email_content`; a key missing from the
properties dict is `Option.none` (the `.get` default supplies ""). -/
structure EmailProps where
  hs_email_from_email : Option String
  hs_email_to_email : Option String
  hs_email_text : Option String
  hs_email_subject : Option String
  hs_timestamp : Option String
deriving DecidableEq

/-- An email record: the id (defaulting to "unknown" when absent) and its
properties. -/
structure EmailData where
  id : Option String
  properties : EmailProps
deriving DecidableEq

/-- The contact fields read by `save_email_content`. -/
structure ContactInfo where
  email : Option String
  firstname : Option String
  lastname : Option String
deriving DecidableEq

/-- The single company field read: the name inside the properties dict,
defaulting to "unknown_company". -/
structure CompanyInfo where
  name : Option String
deriving DecidableEq

/-- The to-address used throughout: the `hs_email_to_email` property of the
email, falling back to the address of the contact when empty. -/
def effectiveTo (email : EmailData) (contact : ContactInfo) : String :=
  let to0 := email.properties.hs_email_to_email.getD ""
  if to0 = "" then contact.email.getD "" else to0

/-- Directory selection of `save_email_content` (lines 77-107):
`is_from_bondo` holds when the from-address is non-empty and its lower-cased
form contains "@bondo.es"; if additionally a to-address is known, the
directory is the single sanitized recipient component; otherwise company
folder / contact folder. -/
def resolve_email_dir (email : EmailData) (contact : ContactInfo) (company : CompanyInfo) :
    List String :=
  let from_email_address := email.properties.hs_email_from_email.getD ""
  let to_email_address := effectiveTo email contact
  let is_from_bondo :=
    (from_email_address != "") && strContains "@bondo.es" (pyLower from_email_address)
  if is_from_bondo && (to_email_address != "") then
    [sanitize_filename (some to_email_address)]
  else
    let company_name := sanitize_filename (some (company.name.getD "unknown_company"))
    let contact_folder :=
      if (to_email_address != "") && (pyStrip to_email_address != "") then
        sanitize_filename (some to_email_address)
      else
        let contact_name := sanitize_filename (some (pyStrip
          (contact.firstname.getD "" ++ " " ++ contact.lastname.getD "")))
        if contact_name ≠ "" then contact_name else "unknown_contact"
    [company_name, contact_folder]

/-- The full placement `(directory components, filename)` of an email, with
`filename = get_email_filename(properties, email_id)`. -/
def resolvePlacement (email : EmailData) (contact : ContactInfo) (company : CompanyInfo) :
    List String × String :=
  (resolve_email_dir email contact company, get_email_filename (email.id.getD "unknown"))

/-- Modelled from the spec, as amended: the override rule applies when the
lower-cased from-address CONTAINS the substring "@bondo.es" (not only when
the from-address domain equals the override domain) and the effective
to-address is non-empty; the final placeholder of the contact folder is the
"unknown" produced by sanitization (the "unknown_contact" branch of the
source is unreachable). -/
def resolvePlacementAmended (email : EmailData) (contact : ContactInfo)
    (company : CompanyInfo) : List String × String :=
  let fromAddr := email.properties.hs_email_from_email.getD ""
  let toAddr := effectiveTo email contact
  let overrideApplies :=
    fromAddr ≠ "" ∧ strContains "@bondo.es" (pyLower fromAddr) = true ∧ toAddr ≠ ""
  let dir :=
    if overrideApplies then [sanitize_filename (some toAddr)]
    else
      [sanitize_filename (some (company.name.getD "unknown_company")),
       if pyStrip toAddr ≠ "" ∧ toAddr ≠ "" then sanitize_filename (some toAddr)
       else sanitize_filename (some (pyStrip
         (contact.firstname.getD "" ++ " " ++ contact.lastname.getD "")))]
  (dir, (email.id.getD "unknown") ++ ".txt")

/-- Follows the words of the spec: the domain of an address is the text after
the last at-sign, compared case-insensitively against the override domain. -/
def spec_from_domain (addr : String) : String :=
  ⟨(addr.data.reverse.takeWhile (fun c => decide (c ≠ '@'))).reverse⟩

/-- Classification of one `save_email_content` call. -/
inductive SaveOutcome where
  | written
  | skippedExisting
  | skippedNoContent
deriving DecidableEq

/-- Observable result of `save_email_content`: the returned bool, the branch
taken, the file writes performed (placement and body text), and the
placements handed to the summarizer `process_email_file`. -/
structure SaveResult where
  returned : Bool
  outcome : SaveOutcome
  writes : List ((List String × String) × String)
  summarizer : List (List String × String)
deriving DecidableEq

/-- Function `save_email_content` (src/hubspot/email_processor.py lines 59-153):
compute the placement; if the target exists and `force` is not set, skip
(still summarizing on request) and return False; otherwise write the file iff
the walrus condition on the text body is truthy, else warn and return False
without writing.  `fileExists` is the filesystem oracle for the existence
test on the target path. -/
def save_email_content (email : EmailData) (contact : ContactInfo) (company : CompanyInfo)
    (fileExists : List String × String → Bool) (force summarize : Bool) : SaveResult :=
  let place := resolvePlacement email contact company
  if fileExists place && !force then
    { returned := false, outcome := SaveOutcome.skippedExisting, writes := [],
      summarizer := if summarize then [place] else [] }
  else
    let text_content := email.properties.hs_email_text.getD ""
    if text_content ≠ "" then
      { returned := true, outcome := SaveOutcome.written, writes := [(place, text_content)],
        summarizer := if summarize then [place] else [] }
    else
      { returned := false, outcome := SaveOutcome.skippedNoContent, writes := [],
        summarizer := [] }

/-! ## Concrete inputs used by counterexamples and witnesses -/

/-- Responses refuting C1: one 429, then two transport errors, with a success
available at the next wire request. -/
def c1cex : Nat → Resp := fun i =>
  match i with
  | 0 => Resp.http429 (some 5)
  | 1 => Resp.transport "e1"
  | 2 => Resp.transport "e2"
  | _ => Resp.success [("k", "v")]

/-- An endless stream of 429 responses with no `Retry-After` header. -/
def c1wF : Nat → Resp := fun _ => Resp.http429 Option.none

/-- Transport failure on every attempt, the message naming the attempt. -/
def c4cex : Nat → Resp := fun i => Resp.transport (toString i)

/-- An endless stream of 429 responses carrying `Retry-After: 3`. -/
def c9wF : Nat → Resp := fun _ => Resp.http429 (some 3)

/-- Empty disk: every key absent. -/
def c5disk : String → DiskResult := fun _ => DiskResult.absent

/-- A fetch returning a fixed non-empty company document. -/
def c5fetch : String → FetchResult := fun _ => FetchResult.ok [("name", "acme")]

/-- A fetch that raises, to show the second lookup never invokes it. -/
def c5fetch2 : String → FetchResult := fun _ => FetchResult.raised

/-- Email whose from-address contains "@bondo.es" as a substring although its
domain is `bondo.esx.com`. -/
def c7email : EmailData :=
  { id := some "7",
    properties :=
      { hs_email_from_email := some "a@bondo.esx.com",
        hs_email_to_email := some "b@c.com",
        hs_email_text := some "hi",
        hs_email_subject := some "s",
        hs_timestamp := Option.none } }

/-- Contact for the C7 counterexample. -/
def c7contact : ContactInfo :=
  { email := some "b@c.com", firstname := some "Jo", lastname := some "Doe" }

/-- Company for the C7 counterexample. -/
def c7company : CompanyInfo := { name := some "ACME" }

/-- An email record without a text body, used by the C8 witness. -/
def c8email : EmailData :=
  { id := some "9",
    properties :=
      { hs_email_from_email := some "x@y.com",
        hs_email_to_email := some "b@c.com",
        hs_email_text := Option.none,
        hs_email_subject := some "s",
        hs_timestamp := Option.none } }

/-! ## Helper lemmas -/

theorem replChar_idem (c : Char) : replChar (replChar c) = replChar c := by
  by_cases h : forbiddenChar c = true
  · simp only [replChar, h, if_true]
    decide
  · simp only [replChar, h]
    simp [h]

theorem list_map_id_of_mem {α : Type} (f : α → α) :
    ∀ l : List α, (∀ x ∈ l, f x = x) → l.map f = l := by
  intro l h
  induction l with
  | nil => rfl
  | cons a t ih =>
    simp only [List.map_cons]
    rw [h a (by simp), ih (fun x hx => h x (by simp [hx]))]

theorem head_dropWhile_false {α : Type} (p : α → Bool) :
    ∀ (l : List α) (c : α) (t : List α), l.dropWhile p = c :: t → p c = false := by
  intro l
  induction l with
  | nil => intro c t h; simp [List.dropWhile] at h
  | cons a l ih =>
    intro c t h
    rw [List.dropWhile_cons] at h
    by_cases hpa : p a = true
    · rw [if_pos hpa] at h; exact ih c t h
    · rw [if_neg hpa] at h
      injection h with h1 _
      subst h1
      exact Bool.not_eq_true _ |>.mp hpa

theorem stripChars_head_not_ws (l : List Char) (c : Char) (t : List Char)
    (h : stripChars l = c :: t) : pyWsChar c = false := by
  obtain ⟨s, hs⟩ := List.rdropWhile_prefix pyWsChar (l.dropWhile pyWsChar)
  rw [show List.rdropWhile pyWsChar (l.dropWhile pyWsChar) = stripChars l from rfl, h] at hs
  exact head_dropWhile_false pyWsChar l c (t ++ s) (by rw [← hs]; rfl)

theorem stripChars_idem (l : List Char) : stripChars (stripChars l) = stripChars l := by
  have hdrop : List.dropWhile pyWsChar (stripChars l) = stripChars l := by
    cases hB : stripChars l with
    | nil => rfl
    | cons c t =>
      rw [List.dropWhile_cons, stripChars_head_not_ws l c t hB]
      simp
  show List.rdropWhile pyWsChar (List.dropWhile pyWsChar (stripChars l)) = stripChars l
  rw [hdrop]
  show List.rdropWhile pyWsChar (List.rdropWhile pyWsChar (l.dropWhile pyWsChar)) = _
  rw [List.rdropWhile_idempotent]
  rfl

theorem mem_stripChars {c : Char} {l : List Char} (h : c ∈ stripChars l) : c ∈ l := by
  have h1 : (stripChars l).Sublist (l.dropWhile pyWsChar) :=
    ( List.rdropWhile_prefix pyWsChar (l.dropWhile pyWsChar)).sublist
  exact List.Sublist.mem h (h1.trans (List.dropWhile_sublist pyWsChar))

theorem sanitize_some (s : String) :
    sanitize_filename (some s) =
      if pyStrip (pyReplaceInvalid s) = "" then "unknown" else pyStrip (pyReplaceInvalid s) := rfl

theorem sanitize_filename_ne_empty (x : Option String) : sanitize_filename x ≠ "" := by
  cases x with
  | none => decide
  | some s =>
    rw [sanitize_some]
    by_cases h : pyStrip (pyReplaceInvalid s) = ""
    · rw [if_pos h]; decide
    · rw [if_neg h]; exact h

theorem sanitize_map_repl (x : Option String) :
    (sanitize_filename x).data.map replChar = (sanitize_filename x).data := by
  cases x with
  | none => decide
  | some s =>
    rw [sanitize_some]
    by_cases h : pyStrip (pyReplaceInvalid s) = ""
    · rw [if_pos h]; decide
    · rw [if_neg h]
      apply list_map_id_of_mem
      intro c hc
      have hc2 : c ∈ s.data.map replChar := mem_stripChars hc
      obtain ⟨b, _, hb⟩ := List.mem_map.mp hc2
      rw [← hb, replChar_idem]

theorem sanitize_pyStrip (x : Option String) :
    pyStrip (sanitize_filename x) = sanitize_filename x := by
  cases x with
  | none => decide
  | some s =>
    rw [sanitize_some]
    by_cases h : pyStrip (pyReplaceInvalid s) = ""
    · rw [if_pos h]; decide
    · rw [if_neg h]
      show (⟨stripChars (stripChars (pyReplaceInvalid s).data)⟩ : String) = _
      rw [stripChars_idem]
      rfl

/-- C10: sanitize is idempotent, and its output is never empty. -/
theorem c10_sanitize_idempotent (x : Option String) :
    sanitize_filename (some (sanitize_filename x)) = sanitize_filename x ∧
    sanitize_filename x ≠ "" := by
  constructor
  · rw [sanitize_some]
    have hrepl : pyReplaceInvalid (sanitize_filename x) = sanitize_filename x := by
      show (⟨(sanitize_filename x).data.map replChar⟩ : String) = _
      rw [sanitize_map_repl]
    rw [hrepl, sanitize_pyStrip, if_neg (sanitize_filename_ne_empty x)]
  · exact sanitize_filename_ne_empty x

/-! ## Rate limiter lemmas -/

theorem pruneOld_eq_filter (now : ℚ) (w : List ℚ) (hw : List.Sorted (· ≤ ·) w) :
    pruneOld now w = w.filter (fun t => decide (now - t ≤ RATE_WINDOW)) := by
  induction w with
  | nil => rfl
  | cons a t ih =>
    rw [List.sorted_cons] at hw
    obtain ⟨ha, ht⟩ := hw
    show List.dropWhile _ (a :: t) = _
    rw [List.dropWhile_cons, List.filter_cons]
    by_cases h : RATE_WINDOW < now - a
    · rw [if_pos (by simpa using h)]
      rw [show (decide (now - a ≤ RATE_WINDOW)) = false by simpa using not_le.mpr h]
      exact ih ht
    · rw [if_neg (by simpa using h)]
      rw [show (decide (now - a ≤ RATE_WINDOW)) = true by simpa using not_lt.mp h]
      simp only [cond_true]
      congr 1
      symm
      rw [List.filter_eq_self]
      intro b hb
      have : now - b ≤ now - a := by linarith [ha b hb]
      simpa using le_trans this (not_lt.mp h)

/-- C2 (amended): one admission step evicts exactly the too-old entries,
waits `max 0 (oldest + RATE_WINDOW - now)` iff the pruned window is at
capacity, does not block below capacity, and appends the ENTRY timestamp
`now` (captured before any sleep) as the last element of the window. -/
theorem c2_admission_step (w : List ℚ) (now : ℚ) (hw : List.Sorted (· ≤ ·) w) :
    pruneOld now w = w.filter (fun t => decide (now - t ≤ RATE_WINDOW)) ∧
    ((pruneOld now w).length < RATE_LIMIT → (wait_for_rate_limit w now).2 = 0) ∧
    (∀ oldest : ℚ, RATE_LIMIT ≤ (pruneOld now w).length →
      (pruneOld now w).head? = some oldest →
      (wait_for_rate_limit w now).2 = max 0 (oldest + RATE_WINDOW - now)) ∧
    (wait_for_rate_limit w now).1.getLast? = some now := by
  refine ⟨pruneOld_eq_filter now w hw, ?_, ?_, ?_⟩
  · intro h
    show (if RATE_LIMIT ≤ (pruneOld now w).length then _ else 0) = 0
    rw [if_neg (not_le.mpr h)]
  · intro oldest hlen hhead
    show (if RATE_LIMIT ≤ (pruneOld now w).length then _ else 0) = _
    rw [if_pos hlen, hhead]
    show (if 0 < oldest + RATE_WINDOW - now then oldest + RATE_WINDOW - now else 0) = _
    by_cases h : 0 < oldest + RATE_WINDOW - now
    · rw [if_pos h, max_eq_right (le_of_lt h)]
    · rw [if_neg h, max_eq_left (le_of_not_lt h)]
  · show (dequeAppendCap (pruneOld now w) now).getLast? = some now
    unfold dequeAppendCap
    by_cases h : RATE_LIMIT ≤ (pruneOld now w).length
    · rw [if_pos h, List.getLast?_concat]
    · rw [if_neg h, List.getLast?_concat]

unseal Rat.add Rat.sub in
theorem c2_counterexample :
    (wait_for_rate_limit (List.replicate 110 0) 5).2 = 5 ∧
    ((wait_for_rate_limit (List.replicate 110 0) 5).1).getLast? = some 5 ∧
    (5 : ℚ) + (wait_for_rate_limit (List.replicate 110 0) 5).2 = 10 ∧ (5 : ℚ) ≠ 10 := by
  decide

unseal Rat.add Rat.sub in
theorem c2_admission_step_witness :
    List.Sorted (· ≤ ·) (List.replicate 110 (0 : ℚ)) ∧
    RATE_LIMIT ≤ (pruneOld 5 (List.replicate 110 (0 : ℚ))).length ∧
    (pruneOld 5 (List.replicate 110 (0 : ℚ))).head? = some 0 ∧
    (wait_for_rate_limit (List.replicate 110 (0 : ℚ)) 5).2 = max 0 (0 + RATE_WINDOW - 5) ∧
    (wait_for_rate_limit (List.replicate 110 (0 : ℚ)) 5).1.getLast? = some 5 :=
  ⟨by decide, by decide, by decide,
   (c2_admission_step (List.replicate 110 (0 : ℚ)) 5 (by decide)).2.2.1 0 (by decide) (by decide),
   (c2_admission_step (List.replicate 110 (0 : ℚ)) 5 (by decide)).2.2.2⟩

theorem pruneOld_length_le (now : ℚ) (w : List ℚ) : (pruneOld now w).length ≤ w.length :=
  (List.dropWhile_sublist _).length_le

theorem wait_window_le (w : List ℚ) (now : ℚ) (h : w.length ≤ RATE_LIMIT) :
    (wait_for_rate_limit w now).1.length ≤ RATE_LIMIT := by
  have hp : (pruneOld now w).length ≤ RATE_LIMIT := le_trans (pruneOld_length_le now w) h
  show (dequeAppendCap (pruneOld now w) now).length ≤ RATE_LIMIT
  unfold dequeAppendCap
  unfold RATE_LIMIT at hp ⊢
  by_cases hc : 110 ≤ (pruneOld now w).length
  · rw [if_pos hc]
    have := List.length_tail (pruneOld now w)
    simp only [List.length_append, List.length_cons, List.length_nil]
    omega
  · rw [if_neg hc]
    simp only [List.length_append, List.length_cons, List.length_nil]
    omega

/-- C3 (amended): along any sequential run, every window state in which an
admission decision is taken (and the final state) holds at most
RATE_LIMIT = 110 timestamps, hence so does its pruned form. -/
theorem c3_window_bound (entries : List ℚ) : ∀ w : List ℚ, w.length ≤ RATE_LIMIT →
    ∀ st ∈ limiterStates w entries,
      st.length ≤ RATE_LIMIT ∧ ∀ now : ℚ, (pruneOld now st).length ≤ RATE_LIMIT := by
  induction entries with
  | nil =>
    intro w hw st hst
    simp only [limiterStates, List.mem_singleton] at hst
    exact hst ▸ ⟨hw, fun now => le_trans (pruneOld_length_le now w) hw⟩
  | cons now rest ih =>
    intro w hw st hst
    simp only [limiterStates, List.mem_cons] at hst
    cases hst with
    | inl h => exact h ▸ ⟨hw, fun n => le_trans (pruneOld_length_le n w) hw⟩
    | inr h => exact ih _ (wait_window_le w now hw) st h

theorem c3_window_bound_witness :
    ([(0 : ℚ)] : List ℚ).length ≤ RATE_LIMIT ∧
    (pruneOld 5 [(0 : ℚ)]).length ≤ RATE_LIMIT :=
  ⟨(c3_window_bound [(0 : ℚ)] [] (by decide) [0] (by decide)).1,
   (c3_window_bound [(0 : ℚ)] [] (by decide) [0] (by decide)).2 5⟩

unseal Rat.add Rat.sub in
theorem c3_counterexample :
    SeqSchedule [] 0 (List.replicate 111 (0 : ℚ)) = true ∧
    ((runLimiter [] (List.replicate 111 (0 : ℚ))).2.map Prod.fst) =
      List.replicate 111 (0 : ℚ) ∧
    RATE_LIMIT < 111 := by
  decide

/-! ## HTTP client theorems -/

/-- C1 (amended): a 429 produces exactly one rate-limit sleep of the parsed
Retry-After value (10 when absent) and then a retry of the next loop
iteration — consuming one unit of the 3-iteration budget (`fuel` drops). -/
theorem c1_429_consumes_attempt (f : Nat → Resp) (fuel attempt : Nat) (ra : Option Nat)
    (h : f attempt = Resp.http429 ra) :
    makeApiGo f (fuel + 1) attempt =
      ((makeApiGo f fuel (attempt + 1)).1,
       SleepEv.rateLimitWait (handle_rate_limit ra) :: (makeApiGo f fuel (attempt + 1)).2.1,
       (makeApiGo f fuel (attempt + 1)).2.2 + 1) := by
  simp only [makeApiGo, h]

theorem c1_429_consumes_attempt_witness :
    makeApiGo c1wF 3 0 =
      ((makeApiGo c1wF 2 1).1,
       SleepEv.rateLimitWait (handle_rate_limit Option.none) :: (makeApiGo c1wF 2 1).2.1,
       (makeApiGo c1wF 2 1).2.2 + 1) :=
  c1_429_consumes_attempt c1wF 2 0 Option.none rfl

/-- C1 counterexample: after one 429 only two transport attempts remain; the
success available at the fourth wire request (the third non-429 attempt the
claim promises) is never made, and the transport error is raised instead. -/
theorem c1_counterexample :
    (make_api_request c1cex).1 = ApiOutcome.raisedTransport "e2" ∧
    (make_api_request c1cex).2.2 = 3 ∧
    c1cex 3 = Resp.success [("k", "v")] ∧
    (make_api_request c1cex).1 ≠ ApiOutcome.ok [("k", "v")] := by
  decide

/-- C4 (amended): three consecutive transport failures raise the last error
after backoff sleeps of exactly 1s and 2s (the third failure raises without
sleeping; no 4s sleep ever occurs); an eventual success returns its payload;
a non-429 HTTP error raises immediately on the first attempt. -/
theorem c4_transport_retry (f : Nat → Resp) :
    (∀ e0 e1 e2, f 0 = Resp.transport e0 → f 1 = Resp.transport e1 →
      f 2 = Resp.transport e2 →
      make_api_request f =
        (ApiOutcome.raisedTransport e2, [SleepEv.backoff 1, SleepEv.backoff 2], 3)) ∧
    (∀ e0 p, f 0 = Resp.transport e0 → f 1 = Resp.success p →
      make_api_request f = (ApiOutcome.ok p, [SleepEv.backoff 1], 2)) ∧
    (∀ e0 e1 p, f 0 = Resp.transport e0 → f 1 = Resp.transport e1 → f 2 = Resp.success p →
      make_api_request f =
        (ApiOutcome.ok p, [SleepEv.backoff 1, SleepEv.backoff 2], 3)) ∧
    (∀ p, f 0 = Resp.success p → make_api_request f = (ApiOutcome.ok p, [], 1)) ∧
    (∀ s, f 0 = Resp.httpErr s → make_api_request f = (ApiOutcome.raisedHttp s, [], 1)) := by
  refine ⟨?_, ?_, ?_, ?_, ?_⟩
  · intro e0 e1 e2 h0 h1 h2
    simp [make_api_request, makeApiGo, h0, h1, h2]
  · intro e0 p h0 h1
    simp [make_api_request, makeApiGo, h0, h1]
  · intro e0 e1 p h0 h1 h2
    simp [make_api_request, makeApiGo, h0, h1, h2]
  · intro p h0
    simp [make_api_request, makeApiGo, h0]
  · intro s h0
    simp [make_api_request, makeApiGo, h0]

theorem c4_transport_retry_witness :
    make_api_request c4cex =
      (ApiOutcome.raisedTransport "2", [SleepEv.backoff 1, SleepEv.backoff 2], 3) :=
  (c4_transport_retry c4cex).1 "0" "1" "2" rfl rfl rfl

/-- C4 counterexample: the all-transport-failure run sleeps exactly 1s and 2s
between its three attempts; no 4-second backoff sleep occurs. -/
theorem c4_counterexample :
    (make_api_request c4cex).2.1 = [SleepEv.backoff 1, SleepEv.backoff 2] ∧
    SleepEv.backoff 4 ∉ (make_api_request c4cex).2.1 ∧
    (make_api_request c4cex).1 = ApiOutcome.raisedTransport "2" := by
  decide

/-- C9: when every attempt yields a 429, the loop performs exactly 3 attempts
and falls through to `return {}` — the empty document, with no error raised. -/
theorem c9_all_429_returns_empty (f : Nat → Resp)
    (h : ∀ i, i < 3 → ∃ ra, f i = Resp.http429 ra) :
    (make_api_request f).1 = ApiOutcome.ok [] ∧ (make_api_request f).2.2 = 3 := by
  obtain ⟨r0, h0⟩ := h 0 (by omega)
  obtain ⟨r1, h1⟩ := h 1 (by omega)
  obtain ⟨r2, h2⟩ := h 2 (by omega)
  simp [make_api_request, makeApiGo, h0, h1, h2]

theorem c9_all_429_returns_empty_witness :
    (make_api_request c9wF).1 = ApiOutcome.ok [] ∧ (make_api_request c9wF).2.2 = 3 :=
  c9_all_429_returns_empty c9wF (fun _ _ => ⟨some 3, rfl⟩)

/-! ## get_company theorems -/

/-- C5: an invalid id returns `{}` with no I/O at all; a first lookup of an
uncached valid key (file absent, or a swallowed read error) fetches exactly
once and persists a non-empty result before returning it; a second lookup on
the updated disk returns the cached document with no fetch, whatever the
fetch function would now do. -/
theorem c5_cache_readthrough (v : IdValue) (key : String) (disk : String → DiskResult)
    (fetch fetch2 : String → FetchResult) (r : PyDict) :
    (is_valid_id v = false → get_company disk fetch v = ([], ⟨[], [], []⟩)) ∧
    (is_valid_id v = true → normalize_id v = some key →
      (disk key = DiskResult.absent ∨ disk key = DiskResult.ioError) →
      fetch key = FetchResult.ok r → r ≠ [] →
      get_company disk fetch v = (r, ⟨[key], [key], [(key, r)]⟩) ∧
      get_company (fun k => if k = key then DiskResult.found r else disk k) fetch2 v
        = (r, ⟨[key], [], []⟩)) := by
  constructor
  · intro h
    simp [get_company, h]
  · intro hv hk hd hf hr
    constructor
    · rcases hd with hd | hd <;>
        simp [get_company, hv, hk, load_company_from_disk, hd, get_company_fetch, hf, hr]
    · simp [get_company, hv, hk, load_company_from_disk, hr]

theorem c5_cache_readthrough_witness :
    is_valid_id (IdValue.int 123) = true ∧
    normalize_id (IdValue.int 123) = some "123" ∧
    get_company c5disk c5fetch (IdValue.int 123) =
      ([("name", "acme")], ⟨["123"], ["123"], [("123", [("name", "acme")])]⟩) ∧
    get_company (fun k => if k = "123" then DiskResult.found [("name", "acme")] else c5disk k)
        c5fetch2 (IdValue.int 123) = ([("name", "acme")], ⟨["123"], [], []⟩) :=
  ⟨by decide, by decide,
   ((c5_cache_readthrough (IdValue.int 123) "123" c5disk c5fetch c5fetch2
      [("name", "acme")]).2 (by decide) (by decide) (Or.inl rfl) rfl (by decide)).1,
   ((c5_cache_readthrough (IdValue.int 123) "123" c5disk c5fetch c5fetch2
      [("name", "acme")]).2 (by decide) (by decide) (Or.inl rfl) rfl (by decide)).2⟩

/-! ## Identifier validity theorems -/

/-- C6 (amended): `is_valid_id` is false exactly for None, for a value whose
Python string form lower-cases (UNtrimmed) to "nan" or strips to the empty
string, and for the float NaN; the canonical examples validate and all
normalize to "123". -/
theorem c6_validity_characterization :
    (∀ v : IdValue, is_valid_id v = false ↔
      (v = IdValue.none ∨ pyLower (pyStr v) = "nan" ∨ pyStrip (pyStr v) = "" ∨
       v = IdValue.float PyFloat.nan)) ∧
    (is_valid_id (IdValue.int 123) = true ∧ is_valid_id (IdValue.str "123") = true ∧
     is_valid_id (IdValue.float (PyFloat.val (mkRat 123 1))) = true ∧
     is_valid_id (IdValue.str "123.0") = true) ∧
    (normalize_id (IdValue.int 123) = some "123" ∧
     normalize_id (IdValue.str "123") = some "123" ∧
     normalize_id (IdValue.float (PyFloat.val (mkRat 123 1))) = some "123" ∧
     normalize_id (IdValue.str "123.0") = some "123") ∧
    (is_valid_id IdValue.none = false ∧ is_valid_id (IdValue.str "") = false ∧
     is_valid_id (IdValue.str "nan") = false ∧ is_valid_id (IdValue.str "NaN") = false ∧
     is_valid_id (IdValue.float PyFloat.nan) = false ∧
     is_valid_id (IdValue.str " ") = false) := by
  refine ⟨?_, by decide, by decide, by decide⟩
  intro v
  cases v with
  | none => simp [is_valid_id]
  | str s =>
    by_cases h1 : pyLower s = "nan" <;> by_cases h2 : pyStrip s = "" <;>
      simp [is_valid_id, pyStr, h1, h2]
  | int n =>
    by_cases h1 : pyLower (toString n) = "nan" <;>
      by_cases h2 : pyStrip (toString n) = "" <;>
      simp [is_valid_id, pyStr, h1, h2]
  | float f =>
    cases f with
    | nan => decide
    | inf => decide
    | val q =>
      by_cases h1 : pyLower (pyFloatRepr q) = "nan" <;>
        by_cases h2 : pyStrip (pyFloatRepr q) = "" <;>
        simp [is_valid_id, pyStr, h1, h2]

/-- C6 counterexample: `" nan "` trims-and-lower-cases to "nan", so the claim
deems it invalid, yet `is_valid_id` accepts it (the code lower-cases without
trimming before comparing to "nan"). -/
theorem c6_counterexample :
    is_valid_id (IdValue.str " nan ") = true ∧
    pyLower (pyStrip " nan ") = "nan" ∧
    pyStrip (pyLower " nan ") = "nan" := by
  decide

/-! ## Email placement theorems -/

/-- C7 (amended): the computed placement coincides with the amended spec: the
override directory applies when the lower-cased from-address CONTAINS
"@bondo.es" and a to-address is known; otherwise company folder then contact
folder; the filename is always `<id>.txt`. -/
theorem c7_placement_refines_amended (email : EmailData) (contact : ContactInfo)
    (company : CompanyInfo) :
    resolvePlacement email contact company = resolvePlacementAmended email contact company := by
  unfold resolvePlacement resolvePlacementAmended resolve_email_dir get_email_filename
  simp only [Bool.and_eq_true, bne_iff_ne, ne_eq]
  by_cases h1 : email.properties.hs_email_from_email.getD "" = "" <;>
    by_cases h2 : strContains "@bondo.es" (pyLower (email.properties.hs_email_from_email.getD "")) = true <;>
    by_cases h3 : effectiveTo email contact = "" <;>
    by_cases h4 : pyStrip (effectiveTo email contact) = "" <;>
    simp [h1, h2, h3, h4, sanitize_filename_ne_empty]

/-- C7 counterexample: a from-address whose domain is `bondo.esx.com` (not the
override domain `bondo.es`) is still routed by the code to the
single-component recipient directory, because the code tests substring
containment of "@bondo.es" rather than domain equality. -/
theorem c7_counterexample :
    resolvePlacement c7email c7contact c7company = (["b@c.com"], "7.txt") ∧
    resolvePlacement c7email c7contact c7company ≠ (["ACME", "b@c.com"], "7.txt") ∧
    pyLower (spec_from_domain (c7email.properties.hs_email_from_email.getD "")) ≠ "bondo.es" := by
  decide

/-- C8: with `force = false` an existing target file is classified
skipped-existing with no write (the summarizer may still run on it); a record
with no text body never produces a write for any `force`, and when the target
does not exist it is classified skipped-no-content. -/
theorem c8_skip_semantics (email : EmailData) (contact : ContactInfo) (company : CompanyInfo)
    (fileExists : List String × String → Bool) (summarize : Bool) :
    (fileExists (resolvePlacement email contact company) = true →
      save_email_content email contact company fileExists false summarize =
        { returned := false, outcome := SaveOutcome.skippedExisting, writes := [],
          summarizer := if summarize then [resolvePlacement email contact company] else [] }) ∧
    (email.properties.hs_email_text.getD "" = "" →
      ∀ force : Bool,
        (save_email_content email contact company fileExists force summarize).writes = []) ∧
    (email.properties.hs_email_text.getD "" = "" →
      fileExists (resolvePlacement email contact company) = false →
      save_email_content email contact company fileExists false summarize =
        { returned := false, outcome := SaveOutcome.skippedNoContent, writes := [],
          summarizer := [] }) := by
  refine ⟨?_, ?_, ?_⟩
  · intro h
    simp [save_email_content, h]
  · intro h force
    by_cases hf : fileExists (resolvePlacement email contact company) = true <;>
      cases force <;> simp [save_email_content, h, hf]
  · intro h hf
    simp [save_email_content, h, hf]

theorem c8_skip_semantics_witness :
    c8email.properties.hs_email_text.getD "" = "" ∧
    save_email_content c8email c7contact c7company (fun _ => false) false false =
      { returned := false, outcome := SaveOutcome.skippedNoContent, writes := [],
        summarizer := [] } ∧
    save_email_content c8email c7contact c7company (fun _ => true) false true =
      { returned := false, outcome := SaveOutcome.skippedExisting, writes := [],
        summarizer := [resolvePlacement c8email c7contact c7company] } :=
  ⟨rfl,
   (c8_skip_semantics c8email c7contact c7company (fun _ => false) false).2.2 rfl rfl,
   (c8_skip_semantics c8email c7contact c7company (fun _ => true) true).1 rfl⟩

theorem c6_validity_characterization_witness :
    is_valid_id (IdValue.str "nan") = false :=
  (c6_validity_characterization.1 (IdValue.str "nan")).mpr (Or.inr (Or.inl (by decide)))

theorem c7_placement_refines_amended_witness :
    resolvePlacement c7email c7contact c7company =
      resolvePlacementAmended c7email c7contact c7company :=
  c7_placement_refines_amended c7email c7contact c7company

theorem c10_sanitize_idempotent_witness :
    sanitize_filename (some (sanitize_filename (some "a/b "))) =
      sanitize_filename (some "a/b ") ∧ sanitize_filename (some "a/b ") ≠ "" :=
  c10_sanitize_idempotent (some "a/b ")
